import Mathlib

/-!
Shallow embedding of the artifact transformation pipeline of
`openshift2nulecule/openshift.py` (classes `OpenshiftClient` and
`ExportedProject`), together with theorems settling the specification
claims about it.

Artifacts are Python dicts of which only the fields `kind`,
`metadata.name`, `metadata.annotations` and
`spec.template.spec.containers[*].image` are ever interpreted; the
embedding keeps exactly those fields.  Strings are Lean `String`s,
external processes (`oc`, `docker`) are modelled as oracle functions or
as explicit action traces in the return value.
-/

set_option autoImplicit false

namespace O2N

/-- A container entry, i.e. one element of
`artifact["spec"]["template"]["spec"]["containers"]`; only its `image`
field is interpreted by the code. -/
structure Container where
  image : String
  deriving DecidableEq

/-- The interpreted part of `artifact["metadata"]`: the resource name and
the annotations mapping.  A Python dict of string keys/values is embedded
as an association list; an absent `annotations` key is embedded as `[]`
(the code reads it with `.get("annotations", {})`, so absence and
emptiness are indistinguishable). -/
structure Metadata where
  name : String
  annotations : List (String × String)
  deriving DecidableEq

/-- One exported resource document.  `containers` embeds the nested list
`spec.template.spec.containers`, read only for workload kinds. -/
structure Artifact where
  kind : String
  metadata : Metadata
  containers : List Container
  deriving DecidableEq

/-- `NULECULE_PROVIDERS`.

Modelled from the spec: the constant lives in
`openshift2nulecule/constants.py`, which is not under `src/`; the spec
(§3, §4.1) fixes the provider set to the two profiles "kubernetes" and
"openshift", in that order. -/
def NULECULE_PROVIDERS : List String := ["kubernetes", "openshift"]

/-- The `all_artifacts` dict built by `export_project`: keyed by exactly
the providers of `NULECULE_PROVIDERS`, each value an ordered artifact
sequence. -/
structure ArtifactCollection where
  kubernetes : List Artifact
  openshift : List Artifact
  deriving DecidableEq

/-- Dict access `artifacts[provider]` (unknown keys never occur in the
code; they are mapped to `[]`). -/
def ArtifactCollection.get (c : ArtifactCollection) (provider : String) : List Artifact :=
  if provider = "kubernetes" then c.kubernetes
  else if provider = "openshift" then c.openshift
  else []

/-- One entry of `ExportedProject.images`, as produced by
`utils.get_image_info`. -/
structure ImageReference where
  original_image : String
  image : String
  internal : Bool
  deriving DecidableEq

/-- First-match lookup in an annotations dict (Python `dict.get(key)`;
keys of a dict are unique, so first match is the match). -/
def lookupAnn (key : String) : List (String × String) → Option String
  | [] => none
  | (k, v) :: t => if k = key then some v else lookupAnn key t

/-- `utils.get_image_info(artifact)`.

Modelled from the spec: `utils.py` is not under `src/`.  Spec §4.2(1):
"for each container, extract its image reference and classify `internal`
by a provided internal-registry-detection rule (delegated predicate)...
Append one ImageReference per container occurrence"; §3: `original_image`
is "the reference as first observed" and `image` starts as the same
string.  The delegated predicate is passed in as `isInternal`. -/
def get_image_info (isInternal : String → Bool) (artifact : Artifact) : List ImageReference :=
  artifact.containers.map (fun c =>
    { original_image := c.image, image := c.image, internal := isInternal c.image })

/-- Splits a character list on a separator character; the pieces do not
contain the separator and concatenating them with the separator restores
the input (Python `str.split(sep)` semantics). -/
def splitOnChar (sep : Char) : List Char → List (List Char)
  | [] => [[]]
  | c :: rest =>
    match splitOnChar sep rest with
    | [] => [[c]]
    | h :: t => if c = sep then [] :: h :: t else (c :: h) :: t

/-- Joins character-list pieces with a separator character (inverse of
`splitOnChar`, Python `sep.join(...)` semantics). -/
def joinChar (sep : Char) : List (List Char) → List Char
  | [] => []
  | [x] => x
  | x :: xs => x ++ sep :: joinChar sep xs

/-- `utils.replace_registry_host(image, registry)`.

Modelled from the spec: `utils.py` is not under `src/`.  Spec §6:
`HostSubstitution(imageRef, newHost)` "replaces only the registry-host
component of an image reference string, preserving path, tag, and/or
digest".  The registry-host component is everything before the first
`/`; a reference with no `/` has no host component and the new host is
prepended. -/
def replace_registry_host (image newHost : String) : String :=
  match splitOnChar '/' image.data with
  | [] => newHost ++ "/" ++ image
  | [_] => newHost ++ "/" ++ image
  | _ :: rest => newHost ++ String.mk ('/' :: joinChar '/' rest)

/-- Splits `name[:tag]`: if the last `/`-component of the reference
contains a `:`, the part after the first such `:` is the tag. -/
def split_name_tag (s : List Char) : List Char × Option (List Char) :=
  match (splitOnChar '/' s).getLast? with
  | none => (s, none)
  | some last =>
    match splitOnChar ':' last with
    | [] => (s, none)
    | [_] => (s, none)
    | r :: ts =>
      (joinChar '/' ((splitOnChar '/' s).dropLast ++ [r]), some (joinChar ':' ts))

/-- `utils.parse_image_name(image)`.

Modelled from the spec: `utils.py` is not under `src/`.  Spec §6:
`ImageNameParse(imageRef) -> (name, tag?, digest?)`.  A reference is
`name[:tag][@digest]`: the digest is everything after the first `@`, and
the tag is parsed out of the last path component of what precedes it. -/
def parse_image_name (image : String) : String × Option String × Option String :=
  match splitOnChar '@' image.data with
  | [] => (image, none, none)
  | [n] =>
    let (name, tag) := split_name_tag n
    (String.mk name, tag.map String.mk, none)
  | n :: rest =>
    let (name, tag) := split_name_tag n
    (String.mk name, tag.map String.mk, some (String.mk (joinChar '@' rest)))

/-- Python `digest.replace(":", "")`: drop every colon. -/
def strip_colons (s : String) : String :=
  String.mk (s.data.filter (fun c => c ≠ ':'))

/-! ### `ExportedProject` construction (`__init__`, lines 166-180) -/

/-- Membership test `artifact["kind"] in ["ReplicationController",
"DeploymentConfig"]` (lines 175-176 and 301). -/
def isWorkload (a : Artifact) : Bool :=
  match a.kind with
  | "ReplicationController" => true
  | "DeploymentConfig" => true
  | _ => false

/-- The inner loop of `__init__` for one provider's artifact list:
`for artifact in ...: if kind in [RC, DC]: images.extend(get_image_info(artifact))`. -/
def scanArtifacts (isInternal : String → Bool) : List Artifact → List ImageReference
  | [] => []
  | a :: t =>
    (if isWorkload a then get_image_info isInternal a else []) ++ scanArtifacts isInternal t

/-- The full inventory scan of `__init__` (lines 171-177): the provider
loop `for provider in NULECULE_PROVIDERS` unrolled over
`NULECULE_PROVIDERS = ["kubernetes", "openshift"]`. -/
def scanImages (isInternal : String → Bool) (c : ArtifactCollection) : List ImageReference :=
  scanArtifacts isInternal c.kubernetes ++ scanArtifacts isInternal c.openshift

/-- The body of `_remove_imagestream_annotations` (lines 317-320) for one
artifact: if the kind is `ImageStream` and the annotations dict is truthy
(non-empty), delete it (deletion and emptiness coincide in the
embedding). -/
def scrubStep (a : Artifact) : Artifact :=
  if a.kind = "ImageStream" then
    if a.metadata.annotations ≠ [] then
      { a with metadata := { a.metadata with annotations := [] } }
    else a
  else a

/-- `ExportedProject._remove_imagestream_annotations` (lines 312-320):
in-place mutation of each artifact of the "openshift" list. -/
def remove_imagestream_annotations (c : ArtifactCollection) : ArtifactCollection :=
  { c with openshift := c.openshift.map scrubStep }

/-- Truthiness of
`obj.get("metadata", {}).get("annotations", {}).get("openshift.io/deployment-config.name", {})`
(line 192): the default `{}` and an empty string are falsy, a non-empty
string value is truthy. -/
def hasDeploymentConfigName (a : Artifact) : Bool :=
  match lookupAnn "openshift.io/deployment-config.name" a.metadata.annotations with
  | none => false
  | some "" => false
  | some _ => true

/-- The removal condition of `_remove_openshift_objects` (lines 189-194):
a `ReplicationController` whose annotations carry a truthy
`openshift.io/deployment-config.name` value. -/
def prunable (a : Artifact) : Bool :=
  if a.kind = "ReplicationController" then hasDeploymentConfigName a else false

/-- Python `list.remove(x)`: delete the first element equal to `x`. -/
def eraseFirst (x : Artifact) : List Artifact → List Artifact
  | [] => []
  | y :: t => if y = x then t else y :: eraseFirst x t

/-- The loop of `_remove_openshift_objects` (lines 188-194):
`for obj in list(cur): if prunable(obj): cur.remove(obj)` — iteration
over a snapshot while removing from the live list. -/
def removeLoop (snapshot cur : List Artifact) : List Artifact :=
  match snapshot with
  | [] => cur
  | o :: t => removeLoop t (if prunable o then eraseFirst o cur else cur)

/-- `ExportedProject._remove_openshift_objects` (lines 182-194): only the
"openshift" list is touched. -/
def remove_openshift_objects (c : ArtifactCollection) : ArtifactCollection :=
  { c with openshift := removeLoop c.openshift c.openshift }

/-- The model state: `self.artifacts` and `self.images`. -/
structure ExportedProject where
  artifacts : ArtifactCollection
  images : List ImageReference
  deriving DecidableEq

/-- `ExportedProject.__init__(artifacts)` (lines 166-180): derive the
image inventory from the incoming artifacts, then
`_remove_imagestream_annotations()`, then `_remove_openshift_objects()`
— in that source order. -/
def mkExportedProject (isInternal : String → Bool) (artifacts : ArtifactCollection) :
    ExportedProject :=
  let images := scanImages isInternal artifacts
  let artifacts1 := remove_imagestream_annotations artifacts
  let artifacts2 := remove_openshift_objects artifacts1
  { artifacts := artifacts2, images := images }

/-! ### `pull_images` (lines 196-231)

The `docker login` call at the top of the method only produces an
external side effect and touches no model state; it is not embedded.
The per-entry loop body both rewrites the entry and possibly issues one
`docker pull`; the embedding returns, for every entry in inventory
order, the updated entry together with the image name pulled for that
entry (`none` when the entry was skipped). -/

/-- One iteration of the `for image_info in self.images` loop of
`pull_images`: internal entries are rewritten to the new registry host
and then pulled; non-internal entries are skipped entirely when
`only_internal` and pulled unrewritten otherwise. -/
def pullStep (registry : String) (only_internal : Bool) (e : ImageReference) :
    ImageReference × Option String :=
  if e.internal then
    let e2 := { e with image := replace_registry_host e.image registry }
    (e2, some e2.image)
  else if only_internal then
    (e, none)
  else
    (e, some e.image)

/-- `ExportedProject.pull_images` (lines 196-231), as the per-entry trace
over the inventory.  `username` and `password` feed only the unmodelled
`docker login` side effect. -/
def pull_images (registry _username _password : String) (only_internal : Bool)
    (images : List ImageReference) : List (ImageReference × Option String) :=
  images.map (pullStep registry only_internal)

/-! ### `push_images` (lines 233-290) -/

/-- One iteration of the `for image_info in self.images` loop of
`push_images`.  The second component is the `docker tag -f old new` /
`docker push new` pair issued for that entry (`none` when skipped):
`(old, new)` means the current image `old` was retagged to `new` and
`new` was pushed. -/
def pushStep (registry : String) (only_internal : Bool) (e : ImageReference) :
    ImageReference × Option (String × String) :=
  if only_internal && !e.internal then
    (e, none)
  else
    let image := e.image
    let name_new_registry := replace_registry_host image registry
    let parsed := parse_image_name name_new_registry
    let new_name := parsed.1
    let new_name_tag := parsed.2.1
    let new_name_digest := parsed.2.2
    let tag : String :=
      match new_name_digest with
      | some d => strip_colons d
      | none =>
        -- Python `"{}:{}".format(new_name, tag)` renders a missing tag
        -- (`None`) as the literal string "None".
        match new_name_tag with
        | some t => t
        | none => "None"
    let new_full_name := new_name ++ ":" ++ tag
    ({ e with image := new_full_name }, some (image, new_full_name))

/-- `ExportedProject.push_images` (lines 233-290), as the per-entry trace
over the inventory.  The conditional `docker login` (only when both
`username` and `password` are non-empty) is an unmodelled side
effect. -/
def push_images (registry _username _password : String) (only_internal : Bool)
    (images : List ImageReference) : List (ImageReference × Option (String × String)) :=
  images.map (pushStep registry only_internal)

/-! ### `update_artifacts_images` (lines 292-310) -/

/-- The innermost loop of `update_artifacts_images` for one container:
`for image in self.images: if container["image"] == image["original_image"]:
container["image"] = image["image"]`.  Note the comparison is against the
container's current (possibly already reassigned) value. -/
def updContainerImage (images : List ImageReference) (s : String) : String :=
  match images with
  | [] => s
  | e :: t => updContainerImage t (if s = e.original_image then e.image else s)

/-- The per-artifact body of `update_artifacts_images`: workload kinds
have every container updated, all other kinds are untouched. -/
def updateArtifact (images : List ImageReference) (a : Artifact) : Artifact :=
  if isWorkload a then
    { a with containers :=
        a.containers.map (fun c => { c with image := updContainerImage images c.image }) }
  else a

/-- `ExportedProject.update_artifacts_images` (lines 292-310): the
provider loop `for provider in NULECULE_PROVIDERS` unrolled over
`NULECULE_PROVIDERS = ["kubernetes", "openshift"]`. -/
def update_artifacts_images (ep : ExportedProject) : ExportedProject :=
  { artifacts :=
      { kubernetes := ep.artifacts.kubernetes.map (updateArtifact ep.images)
        openshift := ep.artifacts.openshift.map (updateArtifact ep.images) }
    images := ep.images }

/-! ### `OpenshiftClient.export_project` (lines 102-156) -/

/-- The parsed output of one `oc export` call (`anymarkup.parse` result):
only the `kind` discriminator and the `items` payload are read. -/
structure Envelope where
  kind : String
  items : List Artifact

/-- The error raised at line 150; the spec's error taxonomy (§7) names it
`FormatError`. -/
structure FormatError where
  msg : String
  deriving DecidableEq

/-- The per-provider resource-kind list (lines 123-133). -/
def resources_for (provider : String) : List String :=
  if provider = "kubernetes" then
    ["persistentVolumeClaim",
     "service",
     "replicationController"]
  else if provider = "openshift" then
    ["imageStream",
     "service",
     "persistentVolumeClaim",
     "replicationController",
     "deploymentConfig",
     "buildConfig"]
  else []

/-- The argument list handed to `_call_oc` for one provider (lines
136-139): `["export", ",".join(resources), "-o", "json"]` plus the
optional selector. -/
def export_args (provider : String) (selector : Option String) : List String :=
  ["export", String.intercalate "," (resources_for provider), "-o", "json"] ++
    (match selector with
     | some s => ["-l", s]
     | none => [])

/-- The envelope unwrap of lines 144-150: a `List` envelope yields its
items, any other kind raises. -/
def unwrapEnvelope (env : Envelope) : Except FormatError (List Artifact) :=
  if env.kind = "List" then
    Except.ok env.items
  else
    Except.error ⟨"Output of `oc export` command is of diferent kind than 'List'"⟩

/-- `OpenshiftClient.export_project` (lines 102-156).  The external
`oc` invocation plus JSON parse is the oracle `query` from argument list
to envelope; the provider loop is unrolled over
`NULECULE_PROVIDERS = ["kubernetes", "openshift"]`, aborting at the
first non-`List` envelope exactly as the raised exception does.  On
success the collected dict is handed to the `ExportedProject`
constructor. -/
def export_project (query : List String → Envelope) (selector : Option String)
    (isInternal : String → Bool) : Except FormatError ExportedProject := do
  let kubernetesArtifacts ← unwrapEnvelope (query (export_args "kubernetes" selector))
  let openshiftArtifacts ← unwrapEnvelope (query (export_args "openshift" selector))
  pure (mkExportedProject isInternal
    { kubernetes := kubernetesArtifacts, openshift := openshiftArtifacts })

/-! ### Specification-side definitions

These two definitions are written from the words of the claims (not from
the source); they are compared with the source-derived model in the
refinement-style claims about the inventory scan. -/

/-- Spec-side description of the inventory scan order (claim C8): the
container image strings of every workload artifact, in
provider-then-artifact-then-container order over
`NULECULE_PROVIDERS = ["kubernetes", "openshift"]`. -/
def containerImagesInScanOrder (c : ArtifactCollection) : List String :=
  (NULECULE_PROVIDERS.map (fun p =>
    ((c.get p).filter isWorkload).map (fun a => a.containers.map Container.image))).flatten.flatten

/-- Spec-side total count of container occurrences across all workload
artifacts of all providers (claim C8). -/
def totalWorkloadContainers (c : ArtifactCollection) : Nat :=
  (containerImagesInScanOrder c).length

/-! ### Concrete inputs used by witnesses and counterexamples -/

/-- A query oracle whose envelopes always report kind `"Pod"`. -/
def queryPod : List String → Envelope := fun _ => { kind := "Pod", items := [] }

/-- A non-internal inventory entry. -/
def exEntryExternal : ImageReference :=
  { original_image := "reg/app:v1", image := "reg/app:v1", internal := false }

/-- The digest-tagged internal entry of the C3 example. -/
def exEntryDigest : ImageReference :=
  { original_image := "registry.example.com/app@sha256:abcd1234"
    image := "registry.example.com/app@sha256:abcd1234"
    internal := true }

/-- A one-container replication controller referencing image `"A"`. -/
def exRC : Artifact :=
  { kind := "ReplicationController"
    metadata := { name := "rc", annotations := [] }
    containers := [{ image := "A" }] }

/-- A model state on which a second `update_artifacts_images` run still
changes a container: the first run rewrites `"A"` to `"B"` (second
entry), and the second run sees `"B"` match the first entry's
`original_image` and rewrites it to `"C"`. -/
def epChained : ExportedProject :=
  { artifacts := { kubernetes := [], openshift := [exRC] }
    images :=
      [{ original_image := "B", image := "C", internal := true },
       { original_image := "A", image := "B", internal := true }] }

/-- A model state whose inventory entries' images are all fixed points of
the per-container rewrite. -/
def epFixed : ExportedProject :=
  { artifacts := { kubernetes := [], openshift := [exRC] }
    images := [{ original_image := "A", image := "B", internal := true }] }

/-- An inventory entry rewritten from `"A"` to `"B"`. -/
def entryAB : ImageReference :=
  { original_image := "A", image := "B", internal := true }

/-- An inventory entry rewritten from `"A"` to `"C"`. -/
def entryAC : ImageReference :=
  { original_image := "A", image := "C", internal := true }

/-- A model state with two inventory entries sharing `original_image`
`"A"` but holding different rewritten images `"B"` and `"C"`. -/
def epShared : ExportedProject :=
  { artifacts := { kubernetes := [], openshift := [exRC] }
    images := [entryAB, entryAC] }

/-- A collection holding an annotated image stream and a
deployment-config-generated replication controller. -/
def exCollection : ArtifactCollection :=
  { kubernetes := []
    openshift :=
      [{ kind := "ImageStream"
         metadata := { name := "is", annotations := [("k", "v")] }
         containers := [] },
       { kind := "Service"
         metadata := { name := "svc", annotations := [("s", "t")] }
         containers := [] },
       { kind := "ReplicationController"
         metadata :=
           { name := "rc"
             annotations := [("openshift.io/deployment-config.name", "dc")] }
         containers := [{ image := "A" }] }] }

/-! ## Helper lemmas -/

theorem updContainerImage_append (l1 l2 : List ImageReference) (s : String) :
    updContainerImage (l1 ++ l2) s = updContainerImage l2 (updContainerImage l1 s) := by
  induction l1 generalizing s with
  | nil => rfl
  | cons e t ih =>
    simp only [List.cons_append, updContainerImage]
    exact ih _

theorem updContainerImage_no_match (l : List ImageReference) (s : String)
    (h : ∀ e ∈ l, e.original_image ≠ s) : updContainerImage l s = s := by
  induction l with
  | nil => rfl
  | cons e t ih =>
    have he : ¬(s = e.original_image) :=
      fun hs => (h e (List.mem_cons_self e t)) hs.symm
    simp only [updContainerImage, if_neg he]
    exact ih (fun x hx => h x (List.mem_cons_of_mem e hx))

theorem updContainerImage_result (l : List ImageReference) (s : String) :
    updContainerImage l s = s ∨ ∃ e ∈ l, e.image = updContainerImage l s := by
  induction l generalizing s with
  | nil => exact Or.inl rfl
  | cons e t ih =>
    simp only [updContainerImage]
    by_cases hs : s = e.original_image
    · rw [if_pos hs]
      rcases ih e.image with h | ⟨x, hx, hxe⟩
      · exact Or.inr ⟨e, List.mem_cons_self e t, h.symm⟩
      · exact Or.inr ⟨x, List.mem_cons_of_mem e hx, hxe⟩
    · rw [if_neg hs]
      rcases ih s with h | ⟨x, hx, hxe⟩
      · exact Or.inl h
      · exact Or.inr ⟨x, List.mem_cons_of_mem e hx, hxe⟩

theorem updContainerImage_idem (l : List ImageReference)
    (h : ∀ e ∈ l, updContainerImage l e.image = e.image) (s : String) :
    updContainerImage l (updContainerImage l s) = updContainerImage l s := by
  rcases updContainerImage_result l s with heq | ⟨e, he, heq⟩
  · rw [heq]
    exact heq
  · rw [← heq]
    exact h e he

theorem eraseFirst_append_of_not_mem (x : Artifact) (l1 l2 : List Artifact)
    (h : x ∉ l1) : eraseFirst x (l1 ++ l2) = l1 ++ eraseFirst x l2 := by
  induction l1 with
  | nil => rfl
  | cons y t ih =>
    have hyx : ¬(y = x) := fun hyx => h (hyx ▸ List.mem_cons_self y t)
    simp only [List.cons_append, eraseFirst, if_neg hyx]
    exact congrArg _ (ih (fun hx => h (List.mem_cons_of_mem y hx)))

theorem removeLoop_filter (l2 : List Artifact) :
    ∀ l1 : List Artifact,
      removeLoop l2 (l1.filter (fun a => !prunable a) ++ l2) =
        (l1 ++ l2).filter (fun a => !prunable a) := by
  induction l2 with
  | nil =>
    intro l1
    simp [removeLoop]
  | cons o t ih =>
    intro l1
    by_cases hp : prunable o = true
    · have hnot : o ∉ l1.filter (fun a => !prunable a) := by
        intro hmem
        have hmp := List.of_mem_filter hmem
        rw [hp] at hmp
        simp at hmp
      have he : eraseFirst o (l1.filter (fun a => !prunable a) ++ o :: t)
          = l1.filter (fun a => !prunable a) ++ t := by
        rw [eraseFirst_append_of_not_mem o _ (o :: t) hnot]
        simp [eraseFirst]
      have step : removeLoop (o :: t) (l1.filter (fun a => !prunable a) ++ o :: t)
          = removeLoop t (l1.filter (fun a => !prunable a) ++ t) := by
        simp [removeLoop, hp, he]
      rw [step]
      have h2 := ih (l1 ++ [o])
      rw [show (l1 ++ [o]).filter (fun a => !prunable a)
            = l1.filter (fun a => !prunable a) from by
          simp [List.filter_append, List.filter_cons, hp]] at h2
      rw [h2]
      simp [List.filter_append, List.filter_cons, hp, List.append_assoc]
    · have hp2 : prunable o = false := by
        revert hp
        cases prunable o <;> simp
      have step : removeLoop (o :: t) (l1.filter (fun a => !prunable a) ++ o :: t)
          = removeLoop t ((l1.filter (fun a => !prunable a) ++ [o]) ++ t) := by
        simp [removeLoop, hp2]
      rw [step]
      have h2 := ih (l1 ++ [o])
      rw [show (l1 ++ [o]).filter (fun a => !prunable a)
            = l1.filter (fun a => !prunable a) ++ [o] from by
          simp [List.filter_append, List.filter_cons, hp2]] at h2
      rw [List.append_assoc] at h2
      rw [List.append_assoc, h2]
      simp [List.filter_append, List.filter_cons, hp2, List.append_assoc]

theorem removeLoop_self (l : List Artifact) :
    removeLoop l l = l.filter (fun a => !prunable a) := by
  have := removeLoop_filter l []
  simpa using this

/-- The openshift list of the constructed model, in closed form. -/
theorem mk_openshift (isInternal : String → Bool) (c : ArtifactCollection) :
    (mkExportedProject isInternal c).artifacts.openshift =
      (c.openshift.map scrubStep).filter (fun a => !prunable a) := by
  unfold mkExportedProject remove_openshift_objects remove_imagestream_annotations
  exact removeLoop_self _

theorem mk_kubernetes (isInternal : String → Bool) (c : ArtifactCollection) :
    (mkExportedProject isInternal c).artifacts.kubernetes = c.kubernetes := rfl

theorem scrubStep_kind (a : Artifact) : (scrubStep a).kind = a.kind := by
  unfold scrubStep
  split <;> [skip; rfl]
  split <;> rfl

theorem scrubStep_of_ne (a : Artifact) (h : a.kind ≠ "ImageStream") :
    scrubStep a = a := by
  unfold scrubStep
  rw [if_neg h]

theorem scrubStep_imagestream (a : Artifact) (h : (scrubStep a).kind = "ImageStream") :
    (scrubStep a).metadata.annotations = [] := by
  have hk : a.kind = "ImageStream" := (scrubStep_kind a) ▸ h
  unfold scrubStep
  rw [if_pos hk]
  by_cases hann : a.metadata.annotations = []
  · rw [if_neg (by simpa using hann)]
    exact hann
  · rw [if_pos (by simpa using hann)]

theorem prunable_scrubStep (a : Artifact) : prunable (scrubStep a) = prunable a := by
  by_cases h : a.kind = "ImageStream"
  · have h1 : prunable a = false := by
      unfold prunable
      rw [if_neg (by rw [h]; decide)]
    have h2 : prunable (scrubStep a) = false := by
      unfold prunable
      rw [if_neg (by rw [scrubStep_kind a, h]; decide)]
    rw [h1, h2]
  · rw [scrubStep_of_ne a h]

/-- Pruning and annotation scrubbing commute: scrubbing never changes
whether an artifact is prunable, and pruning only drops artifacts. -/
theorem prune_scrub_comm (c : ArtifactCollection) :
    remove_openshift_objects (remove_imagestream_annotations c) =
      remove_imagestream_annotations (remove_openshift_objects c) := by
  unfold remove_openshift_objects remove_imagestream_annotations
  simp only [removeLoop_self]
  congr 1
  induction c.openshift with
  | nil => rfl
  | cons a t ih =>
    simp only [List.map_cons, List.filter_cons, prunable_scrubStep]
    by_cases hp : prunable a = true
    · simp [hp, ih]
    · have hp2 : prunable a = false := by
        revert hp
        cases prunable a <;> simp
      simp [hp2, ih]

/-- `update_artifacts_images` maps `updateArtifact` over every
provider's artifact list. -/
theorem get_update (ep : ExportedProject) (p : String) :
    (update_artifacts_images ep).artifacts.get p =
      (ep.artifacts.get p).map (updateArtifact ep.images) := by
  unfold update_artifacts_images ArtifactCollection.get
  by_cases h1 : p = "kubernetes"
  · simp [h1]
  · by_cases h2 : p = "openshift"
    · simp [h1, h2]
    · simp [h1, h2]

theorem updateArtifact_kind (images : List ImageReference) (a : Artifact) :
    (updateArtifact images a).kind = a.kind := by
  unfold updateArtifact
  split <;> rfl

theorem isWorkload_updateArtifact (images : List ImageReference) (a : Artifact) :
    isWorkload (updateArtifact images a) = isWorkload a := by
  unfold isWorkload
  rw [updateArtifact_kind]

theorem updateArtifact_idem (images : List ImageReference)
    (h : ∀ e ∈ images, updContainerImage images e.image = e.image) (a : Artifact) :
    updateArtifact images (updateArtifact images a) = updateArtifact images a := by
  by_cases hw : isWorkload a = true
  · have hw2 : isWorkload (updateArtifact images a) = true := by
      rw [isWorkload_updateArtifact, hw]
    unfold updateArtifact
    rw [hw, if_pos rfl]
    simp only [hw, if_pos rfl] at hw2 ⊢
    rw [if_pos]
    · congr 1
      rw [List.map_map]
      apply List.map_congr_left
      intro c _
      simp only [Function.comp]
      congr 1
      exact updContainerImage_idem images h c.image
    · unfold isWorkload at hw ⊢
      simpa using hw
  · have hw2 : isWorkload a = false := by
      revert hw
      cases isWorkload a <;> simp
    have hid : updateArtifact images a = a := by
      unfold updateArtifact
      rw [hw2]
      simp
    rw [hid, hid]

/-- The inventory scan lists exactly the container images of the
workload artifacts, in artifact-then-container order. -/
theorem scanArtifacts_spec (isInternal : String → Bool) (l : List Artifact) :
    (scanArtifacts isInternal l).map ImageReference.original_image =
      ((l.filter isWorkload).map (fun a => a.containers.map Container.image)).flatten := by
  induction l with
  | nil => rfl
  | cons a t ih =>
    by_cases hw : isWorkload a = true
    · have hsa : scanArtifacts isInternal (a :: t)
          = get_image_info isInternal a ++ scanArtifacts isInternal t := by
        simp [scanArtifacts, hw]
      have hf : (a :: t).filter isWorkload = a :: t.filter isWorkload := by
        simp [List.filter_cons, hw]
      rw [hsa, List.map_append, ih, hf, List.map_cons, List.flatten_cons]
      congr 1
      unfold get_image_info
      rw [List.map_map]
      rfl
    · have hw2 : isWorkload a = false := by
        revert hw
        cases isWorkload a <;> simp
      have hsa : scanArtifacts isInternal (a :: t) = scanArtifacts isInternal t := by
        simp [scanArtifacts, hw2]
      have hf : (a :: t).filter isWorkload = t.filter isWorkload := by
        simp [List.filter_cons, hw2]
      rw [hsa, ih, hf]

/-- The inventory scan of the whole collection, against the spec-side
scan-order list. -/
theorem scanImages_spec (isInternal : String → Bool) (c : ArtifactCollection) :
    (scanImages isInternal c).map ImageReference.original_image =
      containerImagesInScanOrder c := by
  have h1 : containerImagesInScanOrder c =
      ((c.kubernetes.filter isWorkload).map
          (fun a => a.containers.map Container.image)).flatten ++
      ((c.openshift.filter isWorkload).map
          (fun a => a.containers.map Container.image)).flatten := by
    unfold containerImagesInScanOrder NULECULE_PROVIDERS ArtifactCollection.get
    simp [List.flatten_append]
  rw [h1]
  unfold scanImages
  rw [List.map_append, scanArtifacts_spec, scanArtifacts_spec]

/-! ## Claim theorems -/

/-- C1: For every export run, if the envelope returned for some provider
reports a kind other than `"List"`, `export_project` fails with a
`FormatError` and returns no partial `ArtifactCollection`: the result is
an `Except.error`, which exposes no per-provider artifacts to the
caller. -/
theorem claim_C1_export_format_error
    (query : List String → Envelope) (selector : Option String)
    (isInternal : String → Bool)
    (h : (query (export_args "kubernetes" selector)).kind ≠ "List" ∨
         (query (export_args "openshift" selector)).kind ≠ "List") :
    ∃ err : FormatError,
      export_project query selector isInternal = Except.error err := by
  unfold export_project unwrapEnvelope
  by_cases h1 : (query (export_args "kubernetes" selector)).kind = "List"
  · have h2 : (query (export_args "openshift" selector)).kind ≠ "List" := by
      rcases h with ha | hb
      · exact absurd h1 ha
      · exact hb
    rw [if_pos h1, if_neg h2]
    exact ⟨_, rfl⟩
  · rw [if_neg h1]
    exact ⟨_, rfl⟩

/-- Witness for C1: a query answering every export with a `"Pod"`
envelope makes the whole export fail. -/
theorem claim_C1_export_format_error_witness :
    ((queryPod (export_args "kubernetes" none)).kind ≠ "List" ∨
      (queryPod (export_args "openshift" none)).kind ≠ "List") ∧
    (∃ err : FormatError,
      export_project queryPod none (fun _ => true) = Except.error err) :=
  ⟨Or.inl (by decide),
   claim_C1_export_format_error queryPod none (fun _ => true) (Or.inl (by decide))⟩

/-- C2: with `only_internal = true`, `pull_images` issues no pull for an
entry with `internal = false` and leaves it unchanged, while an entry
with `internal = true` has its `image` rewritten by host substitution
(and is pulled) regardless of `only_internal`. -/
theorem claim_C2_pull_only_internal
    (registry username password : String) (images : List ImageReference)
    (i : Nat) (e : ImageReference) (h : images[i]? = some e) :
    (e.internal = false →
      (pull_images registry username password true images)[i]? = some (e, none)) ∧
    (e.internal = true → ∀ only_internal : Bool,
      (pull_images registry username password only_internal images)[i]? =
        some ({ e with image := replace_registry_host e.image registry },
              some (replace_registry_host e.image registry))) := by
  constructor
  · intro hint
    unfold pull_images
    rw [List.getElem?_map, h]
    simp [pullStep, hint]
  · intro hint only_internal
    unfold pull_images
    rw [List.getElem?_map, h]
    simp [pullStep, hint]

/-- Witness for C2 at a concrete external entry. -/
theorem claim_C2_pull_only_internal_witness :
    ([exEntryExternal][0]? = some exEntryExternal) ∧
    ((exEntryExternal.internal = false →
        (pull_images "newreg.example.com" "u" "p" true [exEntryExternal])[0]? =
          some (exEntryExternal, none)) ∧
     (exEntryExternal.internal = true → ∀ only_internal : Bool,
        (pull_images "newreg.example.com" "u" "p" only_internal [exEntryExternal])[0]? =
          some ({ exEntryExternal with
                    image := replace_registry_host exEntryExternal.image "newreg.example.com" },
                some (replace_registry_host exEntryExternal.image "newreg.example.com")))) :=
  ⟨rfl,
   claim_C2_pull_only_internal "newreg.example.com" "u" "p" [exEntryExternal] 0
     exEntryExternal rfl⟩

/-- C3: for an entry processed by `push_images` (i.e. not skipped by the
`only_internal` gate) whose host-substituted reference carries a content
digest, the tag is the digest value with the colons stripped, and the
entry's `image` becomes the host-substituted name joined with that tag;
without a digest the parsed (existing) tag is kept.  The second trace
component records the `docker tag`/`docker push` pair issued for the
entry. -/
theorem claim_C3_push_digest_tag
    (registry username password : String) (only_internal : Bool)
    (images : List ImageReference) (i : Nat) (e : ImageReference)
    (h : images[i]? = some e)
    (hproc : only_internal = true → e.internal = true) :
    (∀ d, (parse_image_name (replace_registry_host e.image registry)).2.2 = some d →
       (push_images registry username password only_internal images)[i]? =
         some ({ e with image :=
                   (parse_image_name (replace_registry_host e.image registry)).1
                     ++ ":" ++ strip_colons d },
               some (e.image,
                 (parse_image_name (replace_registry_host e.image registry)).1
                   ++ ":" ++ strip_colons d))) ∧
    (∀ t, (parse_image_name (replace_registry_host e.image registry)).2.2 = none →
       (parse_image_name (replace_registry_host e.image registry)).2.1 = some t →
       (push_images registry username password only_internal images)[i]? =
         some ({ e with image :=
                   (parse_image_name (replace_registry_host e.image registry)).1
                     ++ ":" ++ t },
               some (e.image,
                 (parse_image_name (replace_registry_host e.image registry)).1
                   ++ ":" ++ t))) := by
  have hskip : (only_internal && !e.internal) = false := by
    cases only_internal with
    | false => rfl
    | true => rw [hproc rfl]; rfl
  constructor
  · intro d hd
    unfold push_images
    rw [List.getElem?_map, h, Option.map_some']
    unfold pushStep
    rw [hskip]
    simp only [Bool.false_eq_true, if_false, hd]
  · intro t hd ht
    unfold push_images
    rw [List.getElem?_map, h, Option.map_some']
    unfold pushStep
    rw [hskip]
    simp only [Bool.false_eq_true, if_false, hd, ht]

/-- Witness for C3: the claim's own example — the digest-tagged image
`registry.example.com/app@sha256:abcd1234` pushed to
`newregistry.example.com` is retagged with `sha256abcd1234` and the
entry ends as `newregistry.example.com/app:sha256abcd1234`. -/
theorem claim_C3_push_digest_tag_witness :
    ([exEntryDigest][0]? = some exEntryDigest) ∧
    (true = true → exEntryDigest.internal = true) ∧
    (parse_image_name
        (replace_registry_host exEntryDigest.image "newregistry.example.com")).2.2 =
      some "sha256:abcd1234" ∧
    (push_images "newregistry.example.com" "u" "p" true [exEntryDigest])[0]? =
      some ({ exEntryDigest with image := "newregistry.example.com/app:sha256abcd1234" },
            some ("registry.example.com/app@sha256:abcd1234",
                  "newregistry.example.com/app:sha256abcd1234")) :=
  ⟨rfl, fun _ => rfl, by decide,
   (claim_C3_push_digest_tag "newregistry.example.com" "u" "p" true [exEntryDigest] 0
       exEntryDigest rfl (fun _ => rfl)).1 "sha256:abcd1234" (by decide)⟩

/-- C4: after `update_artifacts_images`, every container of every
workload artifact holds the result of the per-container rewrite fold:
whenever an inventory entry's `original_image` equals the container's
image string at that point of the scan, the string is set to the entry's
current `image` value (and the scan continues on the remaining entries),
and a container matching no entry is unchanged. -/
theorem claim_C4_update_reference_semantics
    (ep : ExportedProject) (p : String) (i : Nat) (a : Artifact)
    (ha : (ep.artifacts.get p)[i]? = some a) (hw : isWorkload a = true)
    (j : Nat) (cont : Container) (hc : a.containers[j]? = some cont) :
    ∃ a2 : Artifact,
      ((update_artifacts_images ep).artifacts.get p)[i]? = some a2 ∧
      a2.containers[j]? = some { image := updContainerImage ep.images cont.image } ∧
      ((∀ e ∈ ep.images, e.original_image ≠ cont.image) →
        updContainerImage ep.images cont.image = cont.image) ∧
      (∀ l1 e l2, ep.images = l1 ++ e :: l2 →
        updContainerImage l1 cont.image = e.original_image →
        updContainerImage ep.images cont.image = updContainerImage l2 e.image) := by
  refine ⟨updateArtifact ep.images a, ?_, ?_, ?_, ?_⟩
  · rw [get_update, List.getElem?_map, ha, Option.map_some']
  · unfold updateArtifact
    rw [hw]
    rw [if_pos rfl]
    rw [List.getElem?_map, hc, Option.map_some']
  · exact updContainerImage_no_match ep.images cont.image
  · intro l1 e l2 hsplit hmatch
    rw [hsplit, updContainerImage_append]
    show updContainerImage l2
        (if updContainerImage l1 cont.image = e.original_image then e.image
         else updContainerImage l1 cont.image) = updContainerImage l2 e.image
    rw [if_pos hmatch]

/-- Witness for C4 on a one-container replication controller. -/
theorem claim_C4_update_reference_semantics_witness :
    ((epFixed.artifacts.get "openshift")[0]? = some exRC) ∧
    (isWorkload exRC = true) ∧
    (exRC.containers[0]? = some { image := "A" }) ∧
    (∃ a2 : Artifact,
      ((update_artifacts_images epFixed).artifacts.get "openshift")[0]? = some a2 ∧
      a2.containers[0]? =
        some { image := updContainerImage epFixed.images (Container.image { image := "A" }) } ∧
      ((∀ e ∈ epFixed.images,
          e.original_image ≠ Container.image { image := "A" }) →
        updContainerImage epFixed.images (Container.image { image := "A" }) =
          Container.image { image := "A" }) ∧
      (∀ l1 e l2, epFixed.images = l1 ++ e :: l2 →
        updContainerImage l1 (Container.image { image := "A" }) = e.original_image →
        updContainerImage epFixed.images (Container.image { image := "A" }) =
          updContainerImage l2 e.image)) :=
  ⟨rfl, rfl, rfl,
   claim_C4_update_reference_semantics epFixed "openshift" 0 exRC rfl rfl 0
     { image := "A" } rfl⟩

/-- Counterexample for C5: on `epChained` the first run rewrites the
container from `"A"` to `"B"`; the second run sees `"B"` match the first
inventory entry and rewrites it again to `"C"`, so running twice is not
the same as running once. -/
theorem claim_C5_counterexample :
    update_artifacts_images (update_artifacts_images epChained) ≠
      update_artifacts_images epChained := by decide

/-- C5 (amended): `update_artifacts_images` is idempotent provided every
inventory entry's current `image` value is a fixed point of the
per-container rewrite fold — i.e. no entry's rewritten value collides
with another entry's `original_image` that would rewrite it further. -/
theorem claim_C5_update_idempotent_of_fixed (ep : ExportedProject)
    (h : ∀ e ∈ ep.images, updContainerImage ep.images e.image = e.image) :
    update_artifacts_images (update_artifacts_images ep) =
      update_artifacts_images ep := by
  have hmap : ∀ l : List Artifact,
      (l.map (updateArtifact ep.images)).map (updateArtifact ep.images) =
        l.map (updateArtifact ep.images) := by
    intro l
    rw [List.map_map]
    apply List.map_congr_left
    intro a _
    exact updateArtifact_idem ep.images h a
  simp only [update_artifacts_images]
  rw [hmap, hmap]

/-- Witness for C5 (amended): `epFixed` satisfies the fixed-point
hypothesis and a second run changes nothing. -/
theorem claim_C5_update_idempotent_of_fixed_witness :
    (∀ e ∈ epFixed.images, updContainerImage epFixed.images e.image = e.image) ∧
    update_artifacts_images (update_artifacts_images epFixed) =
      update_artifacts_images epFixed :=
  ⟨by decide, claim_C5_update_idempotent_of_fixed epFixed (by decide)⟩

/-- C6: after construction the openshift artifact sequence contains no
replication controller carrying a (truthy) deployment-config
back-reference annotation, it is a sublist of the pre-pruning sequence
(so the relative order of the remaining artifacts is undisturbed), and
every non-prunable pre-pruning artifact is retained. -/
theorem claim_C6_derived_object_pruning (isInternal : String → Bool)
    (c : ArtifactCollection) :
    (∀ a ∈ (mkExportedProject isInternal c).artifacts.openshift,
       ¬(a.kind = "ReplicationController" ∧ hasDeploymentConfigName a = true)) ∧
    (mkExportedProject isInternal c).artifacts.openshift.Sublist
      ((remove_imagestream_annotations c).openshift) ∧
    (∀ a ∈ (remove_imagestream_annotations c).openshift,
       prunable a = false →
         a ∈ (mkExportedProject isInternal c).artifacts.openshift) := by
  have hos : (remove_imagestream_annotations c).openshift = c.openshift.map scrubStep := rfl
  refine ⟨?_, ?_, ?_⟩
  · intro a ha hcontra
    rw [mk_openshift] at ha
    have hmem := List.of_mem_filter ha
    have hpr : prunable a = true := by
      unfold prunable
      rw [if_pos hcontra.1]
      exact hcontra.2
    rw [hpr] at hmem
    simp at hmem
  · rw [mk_openshift, hos]
    exact List.filter_sublist _
  · intro a ha hp
    rw [mk_openshift]
    rw [hos] at ha
    exact List.mem_filter.mpr ⟨ha, by rw [hp]; rfl⟩

/-- Witness for C6: on `exCollection` the deployment-config-generated
replication controller is pruned and the remaining artifacts keep their
order. -/
theorem claim_C6_derived_object_pruning_witness :
    ((mkExportedProject (fun _ => true) exCollection).artifacts.openshift.map
        Artifact.kind = ["ImageStream", "Service"]) ∧
    ((∀ a ∈ (mkExportedProject (fun _ => true) exCollection).artifacts.openshift,
        ¬(a.kind = "ReplicationController" ∧ hasDeploymentConfigName a = true)) ∧
     (mkExportedProject (fun _ => true) exCollection).artifacts.openshift.Sublist
       ((remove_imagestream_annotations exCollection).openshift) ∧
     (∀ a ∈ (remove_imagestream_annotations exCollection).openshift,
        prunable a = false →
          a ∈ (mkExportedProject (fun _ => true) exCollection).artifacts.openshift)) :=
  ⟨by decide, claim_C6_derived_object_pruning (fun _ => true) exCollection⟩

/-- C7: after construction every image-stream artifact of the openshift
profile has an empty annotations map; every artifact of any other kind
is (annotations included) exactly one of the incoming artifacts, and the
kubernetes profile is untouched. -/
theorem claim_C7_imagestream_annotations_empty (isInternal : String → Bool)
    (c : ArtifactCollection) :
    (∀ a ∈ (mkExportedProject isInternal c).artifacts.openshift,
       a.kind = "ImageStream" → a.metadata.annotations = []) ∧
    (∀ a ∈ (mkExportedProject isInternal c).artifacts.openshift,
       a.kind ≠ "ImageStream" → a ∈ c.openshift) ∧
    (mkExportedProject isInternal c).artifacts.kubernetes = c.kubernetes := by
  refine ⟨?_, ?_, mk_kubernetes isInternal c⟩
  · intro a ha hk
    rw [mk_openshift] at ha
    have ha2 := List.mem_of_mem_filter ha
    rcases List.mem_map.mp ha2 with ⟨b, _, rfl⟩
    exact scrubStep_imagestream b hk
  · intro a ha hk
    rw [mk_openshift] at ha
    have ha2 := List.mem_of_mem_filter ha
    rcases List.mem_map.mp ha2 with ⟨b, hb, rfl⟩
    have hbk : b.kind ≠ "ImageStream" := fun hbk => hk (by rw [scrubStep_kind]; exact hbk)
    rw [scrubStep_of_ne b hbk]
    exact hb

/-- Witness for C7: on `exCollection` the image stream's annotations are
cleared while the service's annotations survive. -/
theorem claim_C7_imagestream_annotations_empty_witness :
    ((mkExportedProject (fun _ => true) exCollection).artifacts.openshift.map
        (fun a => a.metadata.annotations) = [[], [("s", "t")]]) ∧
    ((∀ a ∈ (mkExportedProject (fun _ => true) exCollection).artifacts.openshift,
        a.kind = "ImageStream" → a.metadata.annotations = []) ∧
     (∀ a ∈ (mkExportedProject (fun _ => true) exCollection).artifacts.openshift,
        a.kind ≠ "ImageStream" → a ∈ exCollection.openshift) ∧
     (mkExportedProject (fun _ => true) exCollection).artifacts.kubernetes =
       exCollection.kubernetes) :=
  ⟨by decide, claim_C7_imagestream_annotations_empty (fun _ => true) exCollection⟩

/-- C8: the inventory built at construction has exactly one entry per
container occurrence across all workload artifacts of all providers —
the `original_image` sequence is exactly the container image strings in
provider-then-artifact-then-container scan order, and the inventory's
length is the total workload container count. -/
theorem claim_C8_inventory_scan (isInternal : String → Bool) (c : ArtifactCollection) :
    (mkExportedProject isInternal c).images.map ImageReference.original_image =
      containerImagesInScanOrder c ∧
    (mkExportedProject isInternal c).images.length = totalWorkloadContainers c := by
  constructor
  · exact scanImages_spec isInternal c
  · have h := congrArg List.length (scanImages_spec isInternal c)
    rw [List.length_map] at h
    exact h

/-- Counterexample for C9: construction's second derivation is the
annotation scrub, not the pruning.  On `exCollection` the state after
the code's second derivation (`remove_imagestream_annotations`) differs
from the state the claimed order would produce after its second
derivation (`remove_openshift_objects`): the generated replication
controller is still present while the image-stream annotations are
already gone.  The second conjunct pins down that construction is
scrub-then-prune. -/
theorem claim_C9_counterexample :
    remove_imagestream_annotations exCollection ≠
      remove_openshift_objects exCollection ∧
    (mkExportedProject (fun _ => true) exCollection).artifacts =
      remove_openshift_objects (remove_imagestream_annotations exCollection) := by
  constructor
  · decide
  · rfl

/-- C9 (amended): construction derives the image inventory first, then
scrubs image-stream annotations, then prunes derived objects (scrubbing
and pruning in the opposite order to the claim); the two transforms
commute, so the final artifacts equal those of the claimed order, and
the inventory is derived from the unpruned artifacts, so containers of
subsequently pruned replication controllers still contribute inventory
entries. -/
theorem claim_C9_construction_order (isInternal : String → Bool)
    (c : ArtifactCollection) :
    (mkExportedProject isInternal c).artifacts =
      remove_openshift_objects (remove_imagestream_annotations c) ∧
    remove_openshift_objects (remove_imagestream_annotations c) =
      remove_imagestream_annotations (remove_openshift_objects c) ∧
    (mkExportedProject isInternal c).images.map ImageReference.original_image =
      containerImagesInScanOrder c :=
  ⟨rfl, prune_scrub_comm c, scanImages_spec isInternal c⟩

/-- Counterexample for C10: on `epShared` (two entries with
`original_image = "A"`, rewritten images `"B"` and `"C"`) the container
ends up holding `"B"`, the image of the FIRST matching entry, not the
last entry's `"C"`. -/
theorem claim_C10_counterexample :
    ((update_artifacts_images epShared).artifacts.openshift.map
        (fun a => a.containers.map Container.image) = [["B"]]) ∧
    ("B" : String) ≠ "C" := by
  constructor
  · decide
  · decide

/-- C10 (amended): the comparison runs against the container's current,
already-rewritten string, so the container ends up holding the image of
the FIRST entry in inventory order that matches and changes the value;
once rewritten to a value no later entry's `original_image` equals,
later entries — including those sharing the same `original_image` — no
longer match. -/
theorem claim_C10_first_match_wins
    (images l1 : List ImageReference) (e : ImageReference)
    (l2 : List ImageReference) (s : String)
    (hsplit : images = l1 ++ e :: l2)
    (h1 : ∀ x ∈ l1, x.original_image ≠ s)
    (he : e.original_image = s)
    (h2 : ∀ x ∈ l2, x.original_image ≠ e.image) :
    updContainerImage images s = e.image := by
  rw [hsplit, updContainerImage_append, updContainerImage_no_match l1 s h1]
  show updContainerImage l2
      (if s = e.original_image then e.image else s) = e.image
  rw [if_pos he.symm]
  exact updContainerImage_no_match l2 e.image h2

/-- Witness for C10 (amended) on the `epShared` inventory: the first
entry's `"B"` wins over the last entry's `"C"`. -/
theorem claim_C10_first_match_wins_witness :
    (epShared.images = [] ++ entryAB :: [entryAC]) ∧
    (∀ x ∈ ([] : List ImageReference), x.original_image ≠ "A") ∧
    (entryAB.original_image = "A") ∧
    (∀ x ∈ [entryAC], x.original_image ≠ entryAB.image) ∧
    updContainerImage epShared.images "A" = entryAB.image :=
  ⟨rfl, by decide, rfl, by decide,
   claim_C10_first_match_wins epShared.images [] entryAB [entryAC] "A" rfl
     (by decide) rfl (by decide)⟩

end O2N
